import Mathlib

/-!
Verification of the provisioner instance-lifecycle orchestrator.

Shallow embedding of the core of the `djangify/provisioner` repository:
the resource ledger (`core/models.py`), the port allocator
(`Instance.allocate_port`), the container driver (`core/docker_manager.py`),
the billing-event reconciler (`core/stripe_webhooks.py`) and the custom
domain service (`core/services/custom_domain_service.py`).

Conventions of the embedding:
* Instance / subscription statuses are plain strings, exactly as in the
  Django models (`"pending"`, `"running"`, `"deleted"`, ...).
* The database is a list of rows; a `save` is an in-place update of the row
  with the matching primary key.  In-memory model objects and their
  persisted rows are threaded explicitly, mirroring the Python code's
  `obj.field = ...; obj.save(...)` pattern.
* External collaborators (the container runtime, nginx, certbot, DNS,
  Stripe, the mailer) are oracles carried in an environment record; a call
  that the Python code wraps in `try/except` is modelled with `Except`,
  where `.error` is a raised exception.
-/

namespace Provisioner

/-- An `Instance` row (`core/models.py`, `class Instance`).  Fields not
needed by any claim (secret key, admin password, timestamps other than
`last_health_check`) are omitted. -/
structure Instance where
  id : Nat
  customerId : Nat
  subdomain : String
  site_name : String := "My Shop"
  admin_email : String := ""
  port : Option Nat := none
  status : String := "pending"
  status_message : String := ""
  welcome_email_sent : Bool := false
  custom_domain : String := ""
  custom_domain_verified : Bool := false
  custom_domain_ssl : Bool := false
  last_health_check : Option Nat := none
  container_id : String := ""
  container_name : String := ""
deriving Repr, DecidableEq

/-- `settings.PORT_RANGE_START` / `settings.PORT_RANGE_END`
(`provisioner/settings.py`), passed explicitly. -/
structure PortConfig where
  rangeStart : Nat
  rangeEnd : Nat
deriving Repr, DecidableEq

/-- Ports held by rows other than `selfId`, excluding `deleted` instances:
`Instance.objects.exclude(id=self.id).exclude(status="deleted").values_list("port", flat=True)`
in `Instance.allocate_port`.  Rows with `port = None` contribute nothing. -/
def used_ports (db : List Instance) (selfId : Nat) : List Nat :=
  (db.filter (fun i => i.id != selfId && i.status != "deleted")).filterMap
    (fun i => i.port)

/-- `range(settings.PORT_RANGE_START, settings.PORT_RANGE_END + 1)`:
the inclusive configured port range, ascending. -/
def portRange (cfg : PortConfig) : List Nat :=
  (List.range (cfg.rangeEnd + 1 - cfg.rangeStart)).map (fun k => cfg.rangeStart + k)

/-- The scan-and-assign part of `Instance.allocate_port`
(`core/models.py` lines 224-236): compute the used ports, take the first
port of the range not among them, persist it on the row, or raise
`Exception("No available ports in range")`. -/
def allocate_scan (cfg : PortConfig) (db : List Instance) (inst : Instance) :
    Except String (Nat × Instance) :=
  match (portRange cfg).find? (fun p => !((used_ports db inst.id).contains p)) with
  | some p => .ok (p, { inst with port := some p })
  | none => .error "No available ports in range"

/-- `Instance.allocate_port` (`core/models.py` lines 219-236).  The guard
`if self.port:` is Python truthiness: `None` and `0` both fall through to
the scan. -/
def allocate_port (cfg : PortConfig) (db : List Instance) (inst : Instance) :
    Except String (Nat × Instance) :=
  match inst.port with
  | some p => if p != 0 then .ok (p, inst) else allocate_scan cfg db inst
  | none => allocate_scan cfg db inst

/-! ## Concurrency model of `allocate_port` (claim C3)

`Instance.allocate_port` is a plain read-then-write: it queries the used
ports, picks the first free one and saves, with no lock, no
`select_for_update` and no transaction around the scan.  To reason about
concurrent invocations the run is split into its phases exactly as the
source performs them; an interleaving is a sequential composition of
phases of different runs. -/

/-- Read phase: the used-port query at the top of the scan
(an unsynchronized read of the ledger). -/
def alloc_read (db : List Instance) (selfId : Nat) : List Nat :=
  used_ports db selfId

/-- Choose phase: first port of the configured range absent from the
snapshot `used` returned by the read phase. -/
def alloc_choose (cfg : PortConfig) (used : List Nat) : Option Nat :=
  (portRange cfg).find? (fun p => !(used.contains p))

/-- Write phase: `self.port = port; self.save(update_fields=["port"])`.
The column is `models.IntegerField(unique=True, null=True, blank=True)`
(`core/models.py` line 159), so the database rejects the write when any
other row — of any status — already holds the port. -/
def db_write_port (db : List Instance) (selfId : Nat) (p : Nat) :
    Except String (List Instance) :=
  if db.any (fun i => i.id != selfId && i.port == some p) then
    .error "UNIQUE constraint failed: port"
  else
    .ok (db.map (fun i => if i.id = selfId then { i with port := some p } else i))

/-- A whole allocation run for the portless row `selfId` with no
interleaving: read, choose, write (the serial execution). -/
def alloc_serial (cfg : PortConfig) (db : List Instance) (selfId : Nat) :
    Except String (Nat × List Instance) :=
  match alloc_choose cfg (alloc_read db selfId) with
  | none => .error "No available ports in range"
  | some p =>
    match db_write_port db selfId p with
    | .ok db2 => .ok (p, db2)
    | .error e => .error e

/-- Absence of duplicate ports across rows of the ledger: two rows with
different ids either have no port or different ports. -/
def PortsDistinct (db : List Instance) : Prop :=
  ∀ i ∈ db, ∀ j ∈ db, i.id ≠ j.id → i.port = none ∨ i.port ≠ j.port

/-! ## Container driver (`core/docker_manager.py`) -/

/-- Oracle for the container runtime and HTTP client during one driver
call: whether `client.containers.get` finds the container, the runtime
status the container object reports, whether `container.stop` succeeds,
and the health-probe outcome (`none` = `requests.get` raised,
`some code` = a response with that status code). -/
structure DockerEnv where
  containerFound : Bool := true
  containerStatus : String := "running"
  stopOk : Bool := true
  httpResponse : Option Nat := some 200
deriving Repr, DecidableEq

/-- `DockerManager.stop_instance` (`core/docker_manager.py` lines
158-174): stop the container and set status `stopped`; a missing container
(`docker.errors.NotFound`) is treated the same as a successful stop; any
other stop failure is logged and re-raised with the row untouched.
Audit-log writes are omitted here. -/
def stop_instance (env : DockerEnv) (inst : Instance) :
    Except String (Bool × Instance) :=
  if env.containerFound then
    if env.stopOk then .ok (true, { inst with status := "stopped" })
    else .error "Failed to stop"
  else .ok (true, { inst with status := "stopped" })

/-- `DockerManager.health_check` (`core/docker_manager.py` lines 213-238):
returns `(outcome, updated row, audit-log messages)`.  The
container-missing and container-not-running paths return `False` before
the timestamp write and before any log write; an exception from
`requests.get` jumps to the outer handler, which logs but has skipped the
timestamp write; only the response path stamps `last_health_check`. -/
def health_check (env : DockerEnv) (now : Nat) (inst : Instance) :
    Bool × Instance × List String :=
  if !env.containerFound then (false, inst, [])
  else if env.containerStatus != "running" then (false, inst, [])
  else
    match env.httpResponse with
    | none => (false, inst, ["Health check error"])
    | some code =>
      (code == 200, { inst with last_health_check := some now },
        [if code == 200 then "Health check: OK" else "Health check: FAILED"])

/-! ## Custom domain service (`core/services/custom_domain_service.py`) -/

/-- Python `str.strip()`: whitespace removed at both ends (structurally
recursive so that concrete inputs evaluate). -/
def pyStrip (s : String) : String :=
  String.mk
    (((s.data.dropWhile (fun c => c.isWhitespace)).reverse.dropWhile
      (fun c => c.isWhitespace)).reverse)

/-- Python `str.lower()` on ASCII text, as `Char.toLower` per character. -/
def pyLower (s : String) : String :=
  String.mk (s.data.map Char.toLower)

/-- Oracles for the domain service's external collaborators: the nginx
config-file scan of the preflight, DNS resolution, the two certbot
subprocesses, the nginx write+reload, and the container restart. -/
structure DomEnv where
  nginxConflict : Bool := false
  dnsOk : Bool := true
  certbotOk : Bool := true
  certbotDeleteOk : Bool := true
  nginxWriteOk : Bool := true
  restartOk : Bool := true
deriving Repr, DecidableEq

/-- Modelled from the spec: the routing configuration that `NginxManager`
(`core/nginx_manager.py`, which is not under `src/`) writes for one
instance — spec §4.3: always the subdomain virtual host; additionally the
custom domain when set, HTTP-only until `custom_domain_ssl` is true and
HTTPS once it is. -/
structure NginxConf where
  subdomain : String
  custom_domain : Option String
  https : Bool
deriving Repr, DecidableEq

/-- Modelled from the spec: `NginxManager.provision_nginx` regenerates the
instance's routing configuration deterministically from the current
instance fields (spec §4.3). -/
def nginxConfFor (inst : Instance) : NginxConf :=
  { subdomain := inst.subdomain,
    custom_domain :=
      if inst.custom_domain != "" then some inst.custom_domain else none,
    https := inst.custom_domain_ssl }

/-- State the domain service works on: the instance row, the other rows of
the ledger (for the ownership preflight), the instance's routing-config
file (`none` = never written) and whether a certificate for the custom
domain is present on disk. -/
structure DomState where
  inst : Instance
  others : List Instance
  nginxConf : Option NginxConf := none
  certInstalled : Bool := false
deriving Repr, DecidableEq

/-- Modelled from the spec: writing + validating + reloading the routing
config is one fallible external step; on success the config derived from
the current fields replaces the instance's file (spec §4.3 and §6). -/
def provision_nginx (env : DomEnv) (ds : DomState) : Except String DomState :=
  if env.nginxWriteOk then
    .ok { ds with nginxConf := some (nginxConfFor ds.inst) }
  else .error "nginx provision failed"

/-- `check_domain_ownership` (`custom_domain_service.py` lines 75-86):
first non-deleted row other than this instance claiming the domain. -/
def check_domain_ownership (others : List Instance) (domain : String)
    (excludeId : Nat) : Option Instance :=
  (others.filter (fun i =>
    i.custom_domain == domain && i.status != "deleted" &&
      i.id != excludeId)).head?

/-- `setup_custom_domain` (`custom_domain_service.py` lines 232-357).
`.error` is a raised `CustomDomainError` (or a propagated nginx / restart
failure), paired with the state at raise time.  Audit-log writes are
omitted. -/
def setup_custom_domain (env : DomEnv) (ds : DomState) :
    Except (String × DomState) DomState :=
  if pyStrip ds.inst.custom_domain == "" then .error ("No custom domain set", ds)
  else if ds.inst.custom_domain_verified && ds.inst.custom_domain_ssl &&
      ds.certInstalled then
    .ok ds
  else if env.nginxConflict then
    .error ("domain is already configured in nginx", ds)
  else if (check_domain_ownership ds.others
      (pyLower (pyStrip ds.inst.custom_domain)) ds.inst.id).isSome then
    .error ("domain is already assigned to another instance", ds)
  else
    match (if !ds.inst.custom_domain_verified then
             if !env.dnsOk then
               Except.error ("DNS does not resolve to server IP", ds)
             else Except.ok { ds with inst :=
               { ds.inst with custom_domain_verified := true } }
           else Except.ok ds : Except (String × DomState) DomState) with
    | .error e => .error e
    | .ok ds1 =>
      match provision_nginx env ds1 with
      | .error e => .error (e, ds1)
      | .ok ds2 =>
        if !ds2.inst.custom_domain_ssl then
          let ssl_ok := ds2.certInstalled || env.certbotOk
          let ds3 := if ds2.certInstalled then ds2
                     else if env.certbotOk then
                       { ds2 with certInstalled := true }
                     else ds2
          if !ssl_ok then
            if env.restartOk then .ok ds3 else .error ("restart failed", ds3)
          else
            let ds4 := { ds3 with inst :=
              { ds3.inst with custom_domain_ssl := true } }
            match provision_nginx env ds4 with
            | .error e => .error (e, ds4)
            | .ok ds5 =>
              if env.restartOk then .ok ds5 else .error ("restart failed", ds5)
        else
          if env.restartOk then .ok ds2 else .error ("restart failed", ds2)

/-- Ordered observable steps of `remove_custom_domain`. -/
inductive DomEffect
  | saveClearedDomainFields
  | regenNginx
  | deleteCert
  | restartContainer
  | logNoDomain
  | logError
deriving Repr, DecidableEq

/-- `remove_custom_domain` (`custom_domain_service.py` lines 360-441):
clears the three domain fields first and persists them, then regenerates
routing (failure logged and swallowed), optionally best-effort deletes the
certificate, then restarts the container (failure logged and swallowed).
Returns the final state and the ordered effect trace.  With no domain set
it is a logged no-op. -/
def remove_custom_domain (env : DomEnv) (ds : DomState)
    (delete_certificate : Bool) : DomState × List DomEffect :=
  if ds.inst.custom_domain == "" then (ds, [.logNoDomain])
  else
    let had_ssl := ds.inst.custom_domain_ssl
    let ds1 : DomState := { ds with inst := { ds.inst with
      custom_domain := "", custom_domain_verified := false,
      custom_domain_ssl := false } }
    let nres := match provision_nginx env ds1 with
      | .ok d => (d, [DomEffect.regenNginx])
      | .error _ => (ds1, [DomEffect.regenNginx, DomEffect.logError])
    let cres :=
      if delete_certificate && had_ssl then
        if env.certbotDeleteOk then
          ({ nres.1 with certInstalled := false }, [DomEffect.deleteCert])
        else (nres.1, [DomEffect.deleteCert, DomEffect.logError])
      else (nres.1, [])
    let tr4 := if env.restartOk then [DomEffect.restartContainer]
               else [DomEffect.restartContainer, DomEffect.logError]
    (cres.1, DomEffect.saveClearedDomainFields :: (nres.2 ++ cres.2 ++ tr4))

/-- Concrete fixture: instance 1 with a DNS-verified custom domain and no
certificate yet. -/
def shopInst : Instance :=
  { id := 1, customerId := 1, subdomain := "shop",
    custom_domain := "shop.example.com", custom_domain_verified := true }

/-- Concrete fixture: domain-service state for `shopInst`, routing not yet
written, no certificate on disk. -/
def shopDomState : DomState := { inst := shopInst, others := [] }

/-- Concrete fixture: domain-service state for `shopInst` with SSL fully
active (certificate on disk). -/
def shopDomStateSSL : DomState :=
  { inst := { shopInst with custom_domain_ssl := true }, others := [],
    certInstalled := true }

/-! ## Billing event reconciler (`core/stripe_webhooks.py`) -/

/-- A `Customer` row (`core/models.py`).  `portal_password` stores the
hash; `""` is unset (Python falsy). -/
structure Customer where
  id : Nat
  email : String
  stripe_customer_id : String
  portal_password : String := ""
deriving Repr, DecidableEq

/-- A `Subscription` row (`core/models.py`); fields the reconciler does
not branch on (price id, period dates, cancelled-at) are omitted. -/
structure Subscription where
  id : Nat
  customerId : Nat
  stripe_subscription_id : String
  status : String := "active"
deriving Repr, DecidableEq

/-- The ledger: the three row tables. -/
structure SysState where
  customers : List Customer
  subscriptions : List Subscription
  instances : List Instance
deriving Repr, DecidableEq

/-- A Stripe subscription object as far as the recovery path reads it:
its id and its raw Stripe status. -/
structure StripeSub where
  sid : String
  stripeStatus : String := "active"
deriving Repr, DecidableEq

/-- Oracles for the reconciler's collaborators: whether the docker
provision step succeeds, whether the nginx provision step succeeds, the
welcome-email send result, the `_stripe_latest_invoice_is_paid` answer
(`false` also covers a Stripe API error, which that helper converts to
`False`), and the `stripe.Subscription.list` recovery result (`none` =
empty list or Stripe error). -/
structure Env where
  provisionOk : Bool := true
  nginxOk : Bool := true
  sendWelcomeResult : Bool := true
  latestInvoicePaid : Bool := false
  stripeSubRecovered : Option StripeSub := none
deriving Repr, DecidableEq

/-- Externally observable calls of the reconciler, in order. -/
inductive Effect
  | provisionContainer (instId : Nat)
  | provisionNginx (instId : Nat)
  | setPortalPassword (custId : Nat)
  | sendWelcomeEmail (instId : Nat)
  | sendAdminNotice (instId : Nat)
  | logWebhook (msg : String)
deriving Repr, DecidableEq

/-- `customer.instance`: `customer.instances.first()`; the head of the
customer's rows in the model's storage order. -/
def customerInstance (st : SysState) (custId : Nat) : Option Instance :=
  (st.instances.filter (fun i => i.customerId == custId)).head?

/-- Row lookup by primary key. -/
def instById (st : SysState) (iid : Nat) : Option Instance :=
  (st.instances.filter (fun i => i.id == iid)).head?

/-- A Django `save` on an existing instance row: replace the row with the
matching primary key. -/
def setInstance (st : SysState) (inst : Instance) : SysState :=
  { st with instances :=
      st.instances.map (fun i => if i.id = inst.id then inst else i) }

/-- A `save` on an existing customer row. -/
def setCustomer (st : SysState) (c : Customer) : SysState :=
  { st with customers :=
      st.customers.map (fun x => if x.id = c.id then c else x) }

/-- A `save` on an existing subscription row. -/
def setSubscription (st : SysState) (s : Subscription) : SysState :=
  { st with subscriptions :=
      st.subscriptions.map (fun x => if x.id = s.id then s else x) }

/-- `Subscription.objects.filter(stripe_subscription_id=sid).first()`. -/
def findSubByStripeId (subs : List Subscription) (sid : String) :
    Option Subscription :=
  (subs.filter (fun s => s.stripe_subscription_id == sid)).head?

/-- `Subscription.objects.filter(customer=customer).order_by("-id").first()`:
the customer's row with the greatest primary key. -/
def latestSubForCustomer (subs : List Subscription) (cid : Nat) :
    Option Subscription :=
  (subs.filter (fun s => s.customerId == cid)).foldl
    (fun acc s =>
      match acc with
      | none => some s
      | some a => if a.id < s.id then some s else some a) none

/-- Fresh primary key for a new subscription row. -/
def freshSubId (st : SysState) : Nat :=
  (st.subscriptions.foldl (fun m s => max m s.id) 0) + 1

/-- Fresh primary key for a new customer row. -/
def freshCustomerId (st : SysState) : Nat :=
  (st.customers.foldl (fun m c => max m c.id) 0) + 1

/-- Fresh primary key for a new instance row. -/
def freshInstanceId (st : SysState) : Nat :=
  (st.instances.foldl (fun m i => max m i.id) 0) + 1

/-- The Stripe-to-ledger status table of `_upsert_subscription_from_stripe`
(`stripe_webhooks.py` lines 92-100), with the source's fallback to the raw
Stripe status for unmapped values. -/
def status_map (s : String) : String :=
  if s == "active" then "active"
  else if s == "past_due" then "past_due"
  else if s == "canceled" then "cancelled"
  else if s == "unpaid" then "unpaid"
  else if s == "trialing" then "trialing"
  else if s == "incomplete" then "active"
  else if s == "incomplete_expired" then "cancelled"
  else s

/-- `_upsert_subscription_from_stripe` (lines 82-144): `update_or_create`
keyed on the Stripe subscription id, status mapped by `status_map`. -/
def upsertSubscription (st : SysState) (cust : Customer) (ss : StripeSub) :
    Subscription × SysState :=
  match findSubByStripeId st.subscriptions ss.sid with
  | some s =>
    let s2 := { s with customerId := cust.id,
                       status := status_map ss.stripeStatus }
    (s2, setSubscription st s2)
  | none =>
    let s2 : Subscription := { id := freshSubId st, customerId := cust.id,
                               stripe_subscription_id := ss.sid,
                               status := status_map ss.stripeStatus }
    (s2, { st with subscriptions := st.subscriptions ++ [s2] })

/-- `_get_or_create_subscription` (lines 147-199): DB row by Stripe
subscription id, else the customer's latest row, else recovery from
Stripe (upserted); `none` when nothing is resolvable. -/
def get_or_create_subscription (env : Env) (st : SysState) (cust : Customer)
    (stripe_subscription_id : Option String) :
    Option Subscription × SysState :=
  match (match (match stripe_subscription_id with
                | some sid => findSubByStripeId st.subscriptions sid
                | none => none) with
         | some s => some s
         | none => latestSubForCustomer st.subscriptions cust.id) with
  | some s => (some s, st)
  | none =>
    match env.stripeSubRecovered with
    | none => (none, st)
    | some ss =>
      let r := upsertSubscription st cust ss
      (some r.1, r.2)

/-- `DockerManager.provision_instance` (`docker_manager.py` lines 55-135):
persist status `creating`, allocate a port, create and start the
container; on success persist the container identity and status `running`;
on any failure persist status `error` with the failure text and re-raise.
The container-identity strings stand in for the runtime's values. -/
def provision_instance (cfg : PortConfig) (env : Env) (st : SysState)
    (inst : Instance) : Except (String × SysState) (Instance × SysState) :=
  let i1 := { inst with status := "creating" }
  let st1 := setInstance st i1
  match allocate_port cfg st1.instances i1 with
  | .error e =>
    let i2 := { i1 with status := "error", status_message := e }
    .error (e, setInstance st1 i2)
  | .ok r =>
    let st2 := setInstance st1 r.2
    let i3 := { r.2 with container_name := "ebuilder_" ++ r.2.subdomain }
    if env.provisionOk then
      let i4 := { i3 with container_id := "cid-" ++ i3.subdomain,
                          status := "running", status_message := "" }
      .ok (i4, setInstance st2 i4)
    else
      let i4 := { r.2 with status := "error",
                           status_message := "docker run failed" }
      .error ("docker run failed", setInstance st2 i4)

/-- The `try:` body of `ensure_instance_provisioned` (lines 311-353):
provision container and nginx when not running, then the welcome-email
step (portal credential generated when absent, sent-flag set only on a
`True` send result), then the final save of `status` and
`welcome_email_sent`.  `.error` = an exception reaching the body's
`except` handler, with the ledger and trace at raise time. -/
def ensure_body (cfg : PortConfig) (env : Env) (st : SysState)
    (cust : Customer) (inst : Instance) :
    Except (String × SysState × List Effect) (SysState × List Effect) :=
  match (if inst.status != "running" then
           match provision_instance cfg env st inst with
           | .error r =>
             Except.error (r.1, r.2, [Effect.provisionContainer inst.id])
           | .ok r =>
             if env.nginxOk then
               Except.ok ({ r.1 with status := "running" }, r.2,
                 [Effect.provisionContainer inst.id,
                  Effect.provisionNginx inst.id])
             else
               Except.error ("nginx provision failed", r.2,
                 [Effect.provisionContainer inst.id,
                  Effect.provisionNginx inst.id])
         else Except.ok (inst, st, []) :
         Except (String × SysState × List Effect)
           (Instance × SysState × List Effect)) with
  | .error e => .error e
  | .ok r =>
    if !r.1.welcome_email_sent then
      let pw := if cust.portal_password == "" then
          (setCustomer r.2.1 { cust with portal_password := "pbkdf2-hash" },
            [Effect.setPortalPassword cust.id])
        else (r.2.1, [])
      if env.sendWelcomeResult then
        .ok (setInstance pw.1 { r.1 with welcome_email_sent := true },
          r.2.2 ++ pw.2 ++ [Effect.sendWelcomeEmail r.1.id,
            Effect.sendAdminNotice r.1.id])
      else
        .ok (setInstance pw.1 r.1,
          r.2.2 ++ pw.2 ++ [Effect.sendWelcomeEmail r.1.id,
            Effect.logWebhook "Welcome email failed to send"])
    else
      .ok (setInstance r.2.1 r.1, r.2.2)

/-- `ensure_instance_provisioned` (`stripe_webhooks.py` lines 231-361).
Returns `(result, ledger, trace)`.  The body's exceptions are caught,
logged and turned into `False` (lines 355-361), so the function itself
always returns a boolean. -/
def ensure_instance_provisioned (cfg : PortConfig) (env : Env)
    (st : SysState) (cust : Customer) (stripe_subscription_id : Option String)
    (payment_confirmed : Bool) : Bool × SysState × List Effect :=
  match customerInstance st cust.id with
  | none =>
    (false, st,
      [Effect.logWebhook "Provisioning deferred: customer has no instance yet"])
  | some inst =>
    match get_or_create_subscription env st cust stripe_subscription_id with
    | (none, st1) =>
      (false, st1,
        [Effect.logWebhook "Provisioning deferred: no subscription record available yet"])
    | (some sub, st1) =>
      match (if sub.status != "active" then
               if payment_confirmed ||
                   (stripe_subscription_id.isSome && env.latestInvoicePaid) then
                 some (setSubscription st1 { sub with status := "active" })
               else none
             else some st1) with
      | none =>
        (false, st1,
          [Effect.logWebhook "Provisioning deferred: subscription not active and payment not confirmed"])
      | some st2 =>
        if !payment_confirmed && stripe_subscription_id.isSome &&
            !env.latestInvoicePaid then
          (false, st2,
            [Effect.logWebhook "Provisioning deferred: latest invoice not confirmed paid yet"])
        else if inst.status == "running" && inst.welcome_email_sent then
          (true, st2,
            [Effect.logWebhook "Instance already running and welcome email already sent"])
        else
          match ensure_body cfg env st2 cust inst with
          | .ok r =>
            (true, r.1,
              r.2 ++ [Effect.logWebhook "Instance active (provisioning ensured)"])
          | .error r =>
            (false, r.2.1,
              r.2.2 ++ [Effect.logWebhook "Failed during provisioning ensure()"])

/-- A `checkout.session.completed` data object, as far as the handler
reads it.  `customer` / `subscription` carry the Stripe ids;
`meta_subdomain` / `meta_site_name` are `metadata.get("subdomain", "")`
and `metadata.get("site_name", "My Shop")`. -/
structure CheckoutSession where
  id : String := ""
  customer_email : Option String := none
  customer : Option String := none
  subscription : Option String := none
  meta_subdomain : String := ""
  meta_site_name : String := "My Shop"
deriving Repr, DecidableEq

/-- Lowercase ASCII letter or digit. -/
def isLowerAlnum (c : Char) : Bool :=
  (97 ≤ c.toNat && c.toNat ≤ 122) || (48 ≤ c.toNat && c.toNat ≤ 57)

/-- `re.match(r"^[a-z0-9]([a-z0-9-]{0,61}[a-z0-9])?$", subdomain)`:
1 to 63 characters drawn from lowercase alphanumerics and hyphens, first
and last alphanumeric. -/
def validSubdomain (s : String) : Bool :=
  decide (1 ≤ s.data.length) && decide (s.data.length ≤ 63) &&
  s.data.all (fun c => isLowerAlnum c || c == '-') &&
  (match s.data.head? with | some c => isLowerAlnum c | none => false) &&
  (match s.data.getLast? with | some c => isLowerAlnum c | none => false)

/-- Python truthiness for an optional string (`if email:`). -/
def strTruthy (o : Option String) : Bool :=
  match o with
  | some s => s != ""
  | none => false

/-- `_get_or_create_customer` (lines 55-79): row by Stripe customer id,
created with the event's email (or `""`) when absent; then the email is
refreshed when the event carries one that differs. -/
def get_or_create_customer (st : SysState) (scid : String)
    (email : Option String) : Customer × SysState :=
  let r := match (st.customers.filter
      (fun c => c.stripe_customer_id == scid)).head? with
    | some c => (c, st)
    | none =>
      let c : Customer := { id := freshCustomerId st, email := email.getD "",
                            stripe_customer_id := scid }
      (c, { st with customers := st.customers ++ [c] })
  if strTruthy email && r.1.email != email.getD "" then
    let c2 := { r.1 with email := email.getD "" }
    (c2, setCustomer r.2 c2)
  else r

/-- `handle_checkout_completed` (`stripe_webhooks.py` lines 416-537):
validate the subdomain metadata and its availability among non-deleted
instances, create/refresh the customer, create the instance in `pending`
(only here) or reconcile fields onto the existing one — including
reviving a `deleted` row to `pending` — and finish through
`ensure_instance_provisioned` with `payment_confirmed=False`. -/
def handle_checkout_completed (cfg : PortConfig) (env : Env) (st : SysState)
    (session : CheckoutSession) : SysState × List Effect :=
  let subdomain := pyStrip (pyLower session.meta_subdomain)
  let site_name := session.meta_site_name
  match session.customer with
  | none => (st, [Effect.logWebhook "Checkout completed without customer ID"])
  | some scid =>
    if subdomain == "" then
      (st, [Effect.logWebhook "Checkout completed but no subdomain provided"])
    else if !validSubdomain subdomain then
      (st, [Effect.logWebhook "Invalid subdomain format"])
    else if st.instances.any
        (fun i => i.subdomain == subdomain && i.status != "deleted") then
      (st, [Effect.logWebhook "Subdomain already taken"])
    else
      let rc := get_or_create_customer st scid session.customer_email
      match customerInstance rc.2 rc.1.id with
      | some inst =>
        if inst.subdomain != subdomain && inst.status != "deleted" then
          (rc.2,
            [Effect.logWebhook "Customer already has an instance with a different subdomain"])
        else
          let i1 := if site_name != "" && inst.site_name != site_name then
              { inst with site_name := site_name } else inst
          let i2 := if strTruthy session.customer_email &&
              i1.admin_email != (session.customer_email).getD "" then
              { i1 with admin_email := (session.customer_email).getD "" }
            else i1
          let i3 := if i2.status == "deleted" then
              { i2 with status := "pending" } else i2
          let st2 := if i3 != inst then setInstance rc.2 i3 else rc.2
          let r := ensure_instance_provisioned cfg env st2 rc.1
            session.subscription false
          (r.2.1, r.2.2)
      | none =>
        let inst : Instance := { id := freshInstanceId rc.2,
                                 customerId := rc.1.id, subdomain := subdomain,
                                 site_name := site_name,
                                 admin_email := (session.customer_email).getD "",
                                 status := "pending" }
        let st2 := { rc.2 with instances := rc.2.instances ++ [inst] }
        let r := ensure_instance_provisioned cfg env st2 rc.1
          session.subscription false
        (r.2.1, r.2.2)

/-- Whether an `Except` value is a normal return (no exception raised). -/
def exceptOk {ε α : Type} (e : Except ε α) : Bool :=
  match e with
  | .ok _ => true
  | .error _ => false

/-- Concrete fixture: a customer row. -/
def cust1 : Customer := { id := 1, email := "a@b.c", stripe_customer_id := "cus_1" }

/-- Concrete fixture: an active subscription row for `cust1`. -/
def sub1 : Subscription :=
  { id := 1, customerId := 1, stripe_subscription_id := "sub_1" }

/-- Concrete fixture (C1 counterexample): `cust1`'s instance, soft-deleted. -/
def c1DeletedInst : Instance :=
  { id := 1, customerId := 1, subdomain := "shop", admin_email := "a@b.c",
    status := "deleted" }

/-- Concrete fixture (C1 counterexample): ledger with only the deleted
instance, no subscription rows. -/
def c1State : SysState :=
  { customers := [cust1], subscriptions := [], instances := [c1DeletedInst] }

/-- Concrete fixture (C1 counterexample): a checkout session for `cust1`
carrying the same subdomain. -/
def c1Session : CheckoutSession :=
  { customer := some "cus_1", customer_email := some "a@b.c",
    meta_subdomain := "shop" }

/-- Concrete fixture (C1 amended): a second customer with a soft-deleted
instance, distinct from the counterexample's input. -/
def c1bState : SysState :=
  { customers := [{ id := 2, email := "d@e.f", stripe_customer_id := "cus_2" }],
    subscriptions := [],
    instances := [{ id := 2, customerId := 2, subdomain := "store",
                    admin_email := "d@e.f", status := "deleted" }] }

/-- Concrete fixture (C1 amended): checkout session for the second
customer. -/
def c1bSession : CheckoutSession :=
  { customer := some "cus_2", customer_email := some "d@e.f",
    meta_subdomain := "store" }

/-- Concrete fixture (C1 witness): `cust1`'s instance soft-deleted but
still holding its port, welcome email already sent. -/
def c1EnsInst : Instance :=
  { id := 1, customerId := 1, subdomain := "shop", admin_email := "a@b.c",
    status := "deleted", port := some 8100, welcome_email_sent := true }

/-- Concrete fixture (C1 witness): ledger with the deleted instance and an
active subscription. -/
def c1EnsState : SysState :=
  { customers := [cust1], subscriptions := [sub1], instances := [c1EnsInst] }

/-- Concrete fixture (C2): `cust1`'s instance running, welcome email
sent. -/
def c2Inst : Instance :=
  { id := 1, customerId := 1, subdomain := "shop", admin_email := "a@b.c",
    status := "running", welcome_email_sent := true }

/-- Concrete fixture (C2 counterexample): running+sent instance but no
subscription row anywhere. -/
def c2State : SysState :=
  { customers := [cust1], subscriptions := [], instances := [c2Inst] }

/-- Concrete fixture (C2 witness): running+sent instance with an active
subscription row. -/
def c2GoodState : SysState :=
  { customers := [cust1], subscriptions := [sub1], instances := [c2Inst] }

/-- Concrete fixture (C5): pending instance holding a port. -/
def c5Inst : Instance :=
  { id := 1, customerId := 1, subdomain := "shop", admin_email := "a@b.c",
    status := "pending", port := some 8100, welcome_email_sent := true }

/-- Concrete fixture (C5): ledger for the failing-provision scenario. -/
def c5State : SysState :=
  { customers := [cust1], subscriptions := [sub1], instances := [c5Inst] }

/-- Concrete fixture (C5): container provisioning fails. -/
def c5Env : Env := { provisionOk := false }

/-- Concrete fixture (C6): a `pending` instance already holding a port,
welcome email not yet sent — the first-provisioning scenario where the
container is created and the welcome send attempted in the same call. -/
def c6PendInst : Instance :=
  { id := 1, customerId := 1, subdomain := "shop", admin_email := "a@b.c",
    status := "pending", port := some 8100 }

/-- Concrete fixture (C6): ledger for the first-provisioning welcome-email
scenario. -/
def c6PendState : SysState :=
  { customers := [cust1], subscriptions := [sub1], instances := [c6PendInst] }

/-- Concrete fixture (C5 witness): `c5Inst` after the failed provision —
status `error` with the failure text persisted. -/
def c5ErrInst : Instance :=
  { id := 1, customerId := 1, subdomain := "shop", admin_email := "a@b.c",
    port := some 8100, status := "error",
    status_message := "docker run failed", welcome_email_sent := true }

/-- Concrete fixture (C5 witness): the ledger the failing body leaves
behind. -/
def c5ErrState : SysState :=
  { customers := [cust1], subscriptions := [sub1], instances := [c5ErrInst] }

lemma find?_eq_some_min {l : List Nat} {p : Nat → Bool} {a : Nat}
    (hs : l.Sorted (· ≤ ·)) (h : l.find? p = some a) :
    p a = true ∧ a ∈ l ∧ ∀ b ∈ l, p b = true → a ≤ b := by
  induction l with
  | nil => simp [List.find?] at h
  | cons x xs ih =>
    rw [List.sorted_cons] at hs
    by_cases hx : p x
    · rw [List.find?_cons_of_pos _ hx] at h
      cases h
      refine ⟨hx, List.mem_cons_self _ _, ?_⟩
      intro b hb _
      rcases List.mem_cons.mp hb with rfl | hb
      · exact le_refl _
      · exact hs.1 b hb
    · rw [List.find?_cons_of_neg _ (by simpa using hx)] at h
      obtain ⟨hpa, hmem, hmin⟩ := ih hs.2 h
      refine ⟨hpa, List.mem_cons_of_mem _ hmem, ?_⟩
      intro b hb hpb
      rcases List.mem_cons.mp hb with rfl | hb
      · exact absurd hpb hx
      · exact hmin b hb hpb

lemma portRange_sorted (cfg : PortConfig) : (portRange cfg).Sorted (· ≤ ·) := by
  unfold portRange
  have h := List.pairwise_lt_range (cfg.rangeEnd + 1 - cfg.rangeStart)
  exact List.Pairwise.map _
    (fun a b hab => Nat.add_le_add_left (Nat.le_of_lt hab) _) h

lemma mem_used_ports_iff {db : List Instance} {selfId : Nat} {q : Nat} :
    q ∈ used_ports db selfId ↔
      ∃ i ∈ db, i.id ≠ selfId ∧ i.status ≠ "deleted" ∧ i.port = some q := by
  unfold used_ports
  simp only [List.mem_filterMap, List.mem_filter, Bool.and_eq_true, bne_iff_ne,
    ne_eq]
  constructor
  · rintro ⟨i, ⟨hi, hid, hst⟩, hp⟩
    exact ⟨i, hi, hid, hst, hp⟩
  · rintro ⟨i, hi, hid, hst, hp⟩
    exact ⟨i, ⟨hi, hid, hst⟩, hp⟩

/-- C4: `allocate_port` returns an already-set port unchanged; otherwise it
assigns and persists the smallest port of the inclusive configured range not
held by any non-deleted instance, and raises a resource-exhaustion error
when every port of the range is so held. -/
theorem C4_allocate_port_spec (cfg : PortConfig) (db : List Instance)
    (inst : Instance) :
    (∀ p, inst.port = some p → p ≠ 0 → allocate_port cfg db inst = .ok (p, inst)) ∧
    (inst.port = none →
      (∀ q inst2, allocate_port cfg db inst = .ok (q, inst2) →
        inst2 = { inst with port := some q } ∧ q ∈ portRange cfg ∧
        q ∉ used_ports db inst.id ∧
        (∀ r ∈ portRange cfg, r ∉ used_ports db inst.id → q ≤ r)) ∧
      ((∀ r ∈ portRange cfg, r ∈ used_ports db inst.id) →
        allocate_port cfg db inst = .error "No available ports in range") ∧
      ((∃ r ∈ portRange cfg, r ∉ used_ports db inst.id) →
        ∃ q, allocate_port cfg db inst = .ok (q, { inst with port := some q }))) := by
  constructor
  · intro p hp hp0
    simp [allocate_port, hp, hp0]
  · intro hnone
    have hform : allocate_port cfg db inst = allocate_scan cfg db inst := by
      simp [allocate_port, hnone]
    refine ⟨?_, ?_, ?_⟩
    · intro q inst2 hok
      rw [hform] at hok
      unfold allocate_scan at hok
      rcases hfind : (portRange cfg).find?
          (fun p => !((used_ports db inst.id).contains p)) with _ | p
      · rw [hfind] at hok; exact absurd hok (by simp)
      · rw [hfind] at hok
        obtain ⟨hpq, hmem, hmin⟩ := find?_eq_some_min (portRange_sorted cfg) hfind
        have hq : q = p ∧ inst2 = { inst with port := some p } := by
          refine ⟨?_, ?_⟩ <;> cases hok <;> rfl
        rcases hq with ⟨rfl, rfl⟩
        refine ⟨rfl, hmem, ?_, ?_⟩
        · simpa using hpq
        · intro r hr hru
          exact hmin r hr (by simpa using hru)
    · intro hall
      rw [hform]
      unfold allocate_scan
      have : (portRange cfg).find?
          (fun p => !((used_ports db inst.id).contains p)) = none := by
        rw [List.find?_eq_none]
        intro r hr
        simpa using hall r hr
      rw [this]
    · rintro ⟨r, hr, hru⟩
      rw [hform]
      unfold allocate_scan
      rcases hfind : (portRange cfg).find?
          (fun p => !((used_ports db inst.id).contains p)) with _ | p
      · rw [List.find?_eq_none] at hfind
        exact absurd (by simpa using hfind r hr) (by simpa using hru)
      · exact ⟨p, rfl⟩

/-- Witness for C4 at a concrete ledger: instance 1 (non-deleted) already
holds 8100, so portless instance 2 is assigned a free port of the range. -/
theorem C4_allocate_port_spec_witness :
    ∃ q, allocate_port ⟨8100, 8102⟩
      [{ id := 1, customerId := 1, subdomain := "a", port := some 8100 },
       { id := 2, customerId := 2, subdomain := "b" }]
      { id := 2, customerId := 2, subdomain := "b" } =
      .ok (q, { id := 2, customerId := 2, subdomain := "b", port := some q }) :=
  ((C4_allocate_port_spec ⟨8100, 8102⟩
      [{ id := 1, customerId := 1, subdomain := "a", port := some 8100 },
       { id := 2, customerId := 2, subdomain := "b" }]
      { id := 2, customerId := 2, subdomain := "b" }).2 rfl).2.2
    ⟨8101, by decide, by decide⟩

/-- C3 counterexample: the read-then-write is NOT atomic.  Two fresh
instances (ids 1 and 2), range 8100-8102.  In the interleaving where both
read phases run before either write, both allocations choose port 8100;
the first write lands and the second is rejected by the unique index —
an outcome different from every serial order, in which the second
allocation would have received 8101. -/
theorem C3_allocate_not_atomic_counterexample :
    alloc_choose ⟨8100, 8102⟩
        (alloc_read
          [{ id := 1, customerId := 1, subdomain := "a" },
           { id := 2, customerId := 2, subdomain := "b" }] 1) = some 8100 ∧
    alloc_choose ⟨8100, 8102⟩
        (alloc_read
          [{ id := 1, customerId := 1, subdomain := "a" },
           { id := 2, customerId := 2, subdomain := "b" }] 2) = some 8100 ∧
    db_write_port
        [{ id := 1, customerId := 1, subdomain := "a" },
         { id := 2, customerId := 2, subdomain := "b" }] 1 8100 =
      .ok [{ id := 1, customerId := 1, subdomain := "a", port := some 8100 },
           { id := 2, customerId := 2, subdomain := "b" }] ∧
    db_write_port
        [{ id := 1, customerId := 1, subdomain := "a", port := some 8100 },
         { id := 2, customerId := 2, subdomain := "b" }] 2 8100 =
      .error "UNIQUE constraint failed: port" ∧
    alloc_serial ⟨8100, 8102⟩
        [{ id := 1, customerId := 1, subdomain := "a", port := some 8100 },
         { id := 2, customerId := 2, subdomain := "b" }] 2 =
      .ok (8101,
        [{ id := 1, customerId := 1, subdomain := "a", port := some 8100 },
         { id := 2, customerId := 2, subdomain := "b", port := some 8101 }]) := by
  refine ⟨by rfl, by rfl, by rfl, by rfl, by rfl⟩

/-- C3 amended: the allocation scan is not atomic, but no two rows ever
end up persisted with the same port: the write phase goes through the
database unique index on the port column, which preserves distinctness of
ports (first conjunct), while the unsynchronized read-then-write lets two
concurrent allocations choose the same port, the second write failing
instead of double-assigning (second conjunct, at a concrete ledger). -/
theorem C3_port_uniqueness_by_unique_index (db db2 : List Instance)
    (selfId p : Nat) (hdist : PortsDistinct db)
    (hw : db_write_port db selfId p = .ok db2) :
    PortsDistinct db2 ∧
    (alloc_choose ⟨8200, 8201⟩
        (alloc_read
          [{ id := 3, customerId := 3, subdomain := "c" },
           { id := 4, customerId := 4, subdomain := "d" }] 3) =
      alloc_choose ⟨8200, 8201⟩
        (alloc_read
          [{ id := 3, customerId := 3, subdomain := "c" },
           { id := 4, customerId := 4, subdomain := "d" }] 4) ∧
     db_write_port
        [{ id := 3, customerId := 3, subdomain := "c", port := some 8200 },
         { id := 4, customerId := 4, subdomain := "d" }] 4 8200 =
       .error "UNIQUE constraint failed: port") := by
  refine ⟨?_, by rfl, by rfl⟩
  unfold db_write_port at hw
  by_cases hany : (db.any (fun i => i.id != selfId && i.port == some p)) = true
  · rw [if_pos hany] at hw; exact absurd hw (by simp)
  · rw [if_neg hany] at hw
    have hdb2 : db2 = db.map
        (fun i => if i.id = selfId then { i with port := some p } else i) := by
      cases hw; rfl
    have hfree : ∀ i ∈ db, i.id ≠ selfId → i.port ≠ some p := by
      intro i hi hid hp
      exact hany (List.any_eq_true.mpr ⟨i, hi, by simp [hid, hp]⟩)
    subst hdb2
    intro i2 hi2 j2 hj2 hne
    obtain ⟨i, hi, rfl⟩ := List.mem_map.mp hi2
    obtain ⟨j, hj, rfl⟩ := List.mem_map.mp hj2
    by_cases hiid : i.id = selfId <;> by_cases hjid : j.id = selfId
    · exact absurd (by simp [hiid, hjid]) hne
    · right
      simp only [if_pos hiid, if_neg hjid]
      intro hEq
      exact hfree j hj hjid (by simpa using hEq.symm)
    · by_cases hip : i.port = none
      · left
        simpa [if_neg hiid] using hip
      · right
        simp only [if_neg hiid, if_pos hjid]
        intro hEq
        exact hfree i hi hiid (by simpa using hEq)
    · simp only [if_neg hiid, if_neg hjid] at hne ⊢
      exact hdist i hi j hj hne

/-- Witness for the amended C3 theorem: writing port 8101 for row 2 of a
distinct-ports ledger preserves distinctness. -/
theorem C3_port_uniqueness_by_unique_index_witness :
    PortsDistinct
      [{ id := 1, customerId := 1, subdomain := "a", port := some 8100 },
       { id := 2, customerId := 2, subdomain := "b", port := some 8101 }] :=
  (C3_port_uniqueness_by_unique_index
    [{ id := 1, customerId := 1, subdomain := "a", port := some 8100 },
     { id := 2, customerId := 2, subdomain := "b" }]
    [{ id := 1, customerId := 1, subdomain := "a", port := some 8100 },
     { id := 2, customerId := 2, subdomain := "b", port := some 8101 }]
    2 8101 (by unfold PortsDistinct; decide) (by rfl)).1

/-- C9: `stop_instance` on an instance whose container no longer exists in
the runtime returns success without raising and sets the status to
`stopped`. -/
theorem C9_stop_missing_container (env : DockerEnv) (inst : Instance)
    (h : env.containerFound = false) :
    stop_instance env inst = .ok (true, { inst with status := "stopped" }) := by
  simp [stop_instance, h]

/-- Witness for C9 at a concrete call: container gone, row was `running`. -/
theorem C9_stop_missing_container_witness :
    stop_instance { containerFound := false }
      { id := 7, customerId := 7, subdomain := "gone", status := "running" } =
      .ok (true, { id := 7, customerId := 7, subdomain := "gone",
                   status := "stopped" }) :=
  C9_stop_missing_container { containerFound := false }
    { id := 7, customerId := 7, subdomain := "gone", status := "running" } rfl

/-- C10 counterexample: a failing call does NOT always record the outcome
and timestamp.  With the container missing, `health_check` returns `false`
but leaves `last_health_check` unset and writes no log entry. -/
theorem C10_health_check_no_record_counterexample :
    health_check { containerFound := false } 42
        { id := 1, customerId := 1, subdomain := "a" } =
      (false, { id := 1, customerId := 1, subdomain := "a" }, []) ∧
    (health_check { containerFound := false } 42
        { id := 1, customerId := 1, subdomain := "a" }).2.1.last_health_check
      = none := by
  exact ⟨rfl, rfl⟩

/-- C10 amended: `health_check` never raises and returns `true` exactly on
a 200 response from a found, running container; but it stamps
`last_health_check` (and logs an outcome) only when the container is found
and running — the container-missing and not-running paths return `false`
with no record at all, and the HTTP-exception path logs the error without
stamping the timestamp. -/
theorem C10_health_check_amended (env : DockerEnv) (now : Nat)
    (inst : Instance) :
    (health_check env now inst).1 =
      (env.containerFound && env.containerStatus == "running" &&
        env.httpResponse == some 200) ∧
    (health_check env now inst).2.1 =
      (if env.containerFound && env.containerStatus == "running" &&
          (env.httpResponse).isSome
       then { inst with last_health_check := some now } else inst) ∧
    ((health_check env now inst).2.2 = [] ↔
      (env.containerFound = false ∨ env.containerStatus ≠ "running")) := by
  rcases env with ⟨cf, cs, so, hr⟩
  cases cf
  · simp [health_check]
  · by_cases hcs : cs = "running"
    · subst hcs
      cases hr with
      | none => simp [health_check]
      | some code => by_cases hc : code = 200 <;> simp [health_check, hc]
    · simp [health_check, hcs, bne_iff_ne]

/-- C7: with the custom domain set and DNS-verified and every other
collaborator healthy, a failing certificate issuance is non-fatal:
`setup_custom_domain` returns normally, `custom_domain_ssl` stays false,
and the HTTP routing config written in step 4 is still in place (HTTP
variant, not rolled back). -/
theorem C7_ssl_failure_nonfatal (env : DomEnv) (ds : DomState)
    (hdom : pyStrip ds.inst.custom_domain ≠ "")
    (hver : ds.inst.custom_domain_verified = true)
    (hssl : ds.inst.custom_domain_ssl = false)
    (hcert : ds.certInstalled = false)
    (hconf : env.nginxConflict = false)
    (hown : check_domain_ownership ds.others
      (pyLower (pyStrip ds.inst.custom_domain)) ds.inst.id = none)
    (hwrite : env.nginxWriteOk = true)
    (hfail : env.certbotOk = false)
    (hrestart : env.restartOk = true) :
    setup_custom_domain env ds =
      .ok { ds with nginxConf := some (nginxConfFor ds.inst) } ∧
    (nginxConfFor ds.inst).https = false := by
  constructor
  · simp only [setup_custom_domain, provision_nginx, hver, hssl, hcert, hconf,
      hown, hwrite, hfail, hrestart]
    simp [hdom, hssl, hcert]
  · simp [nginxConfFor, hssl]

/-- Witness for C7 at a concrete verified domain with certbot failing. -/
theorem C7_ssl_failure_nonfatal_witness :
    setup_custom_domain { certbotOk := false } shopDomState =
      .ok { shopDomState with nginxConf := some (nginxConfFor shopInst) } ∧
    (nginxConfFor shopInst).https = false :=
  C7_ssl_failure_nonfatal { certbotOk := false } shopDomState
    (by decide) rfl rfl rfl rfl (by rfl) rfl rfl rfl

/-- C8: `remove_custom_domain` clears and persists the three domain fields
before any routing / certificate / restart step — they are cleared in the
final state for every combination of later-step failures, and the
field-clearing save heads the effect trace — and with no domain set it is
a logged no-op that mutates nothing. -/
theorem C8_remove_clears_fields_first (env : DomEnv) (ds : DomState)
    (delete_certificate : Bool) :
    (ds.inst.custom_domain ≠ "" →
      ((remove_custom_domain env ds delete_certificate).1.inst.custom_domain
          = "" ∧
        (remove_custom_domain env ds
          delete_certificate).1.inst.custom_domain_verified = false ∧
        (remove_custom_domain env ds
          delete_certificate).1.inst.custom_domain_ssl = false) ∧
      (remove_custom_domain env ds delete_certificate).2.head? =
        some DomEffect.saveClearedDomainFields) ∧
    (ds.inst.custom_domain = "" →
      remove_custom_domain env ds delete_certificate =
        (ds, [DomEffect.logNoDomain])) := by
  constructor
  · intro hdom
    have hbeq : (ds.inst.custom_domain == "") = false := by
      simpa using hdom
    rcases env with ⟨nc, dns, cb, cbd, nw, ro⟩
    cases nw <;> cases cbd <;> cases ro <;>
      cases hd : delete_certificate && ds.inst.custom_domain_ssl <;>
        simp [remove_custom_domain, provision_nginx, hbeq, hd]
  · intro hdom
    simp [remove_custom_domain, hdom]

/-- Witness for C8: domain set, nginx regeneration AND container restart
both fail, certificate deletion requested — the fields are still cleared
and the clearing save comes first. -/
theorem C8_remove_clears_fields_first_witness :
    (((remove_custom_domain { nginxWriteOk := false, restartOk := false }
          shopDomStateSSL true).1.inst.custom_domain = "" ∧
      (remove_custom_domain { nginxWriteOk := false, restartOk := false }
          shopDomStateSSL true).1.inst.custom_domain_verified = false ∧
      (remove_custom_domain { nginxWriteOk := false, restartOk := false }
          shopDomStateSSL true).1.inst.custom_domain_ssl = false) ∧
      (remove_custom_domain { nginxWriteOk := false, restartOk := false }
          shopDomStateSSL true).2.head? =
        some DomEffect.saveClearedDomainFields) :=
  (C8_remove_clears_fields_first { nginxWriteOk := false, restartOk := false }
    shopDomStateSSL true).1 (by decide)

lemma mem_of_head?_filter {l : List Instance} {p : Instance → Bool}
    {a : Instance} (h : (l.filter p).head? = some a) : a ∈ l := by
  cases hl : l.filter p with
  | nil => rw [hl] at h; cases h
  | cons x xs =>
    rw [hl] at h
    have hx : x = a := by simpa using h
    subst hx
    exact List.mem_of_mem_filter (by rw [hl]; exact List.mem_cons_self x xs)

lemma mem_of_customerInstance {st : SysState} {cid : Nat} {inst : Instance}
    (h : customerInstance st cid = some inst) : inst ∈ st.instances :=
  mem_of_head?_filter h

lemma head_filter_replace (l : List Instance) (j : Instance)
    (h : ∃ i ∈ l, i.id = j.id) :
    ((l.map (fun i => if i.id = j.id then j else i)).filter
      (fun i => i.id == j.id)).head? = some j := by
  induction l with
  | nil => simp at h
  | cons a t ih =>
    by_cases ha : a.id = j.id
    · simp [ha]
    · rcases h with ⟨i, hi, hid⟩
      rcases List.mem_cons.mp hi with rfl | hit
      · exact absurd hid ha
      · simpa [ha] using ih ⟨i, hit, hid⟩

lemma instById_setInstance_self (st : SysState) (j : Instance)
    (h : ∃ i ∈ st.instances, i.id = j.id) :
    instById (setInstance st j) j.id = some j :=
  head_filter_replace st.instances j h

lemma instById_setInstance_eq (st : SysState) (j : Instance) (n : Nat)
    (hn : j.id = n) (h : ∃ i ∈ st.instances, i.id = n) :
    instById (setInstance st j) n = some j := by
  subst hn
  exact head_filter_replace st.instances j h

lemma exists_id_setInstance (st : SysState) (j : Instance) (n : Nat)
    (h : ∃ i ∈ st.instances, i.id = n) :
    ∃ i ∈ (setInstance st j).instances, i.id = n := by
  rcases h with ⟨i, hi, hid⟩
  unfold setInstance
  by_cases hij : i.id = j.id
  · refine ⟨j, List.mem_map.mpr ⟨i, hi, by simp [hij]⟩, ?_⟩
    rw [← hij, hid]
  · exact ⟨i, List.mem_map.mpr ⟨i, hi, by simp [hij]⟩, hid⟩

lemma ensure_reaches_body (cfg : PortConfig) (env : Env) (st : SysState)
    (cust : Customer) (inst : Instance) (sub : Subscription)
    (subId : Option String) (pc : Bool)
    (hci : customerInstance st cust.id = some inst)
    (hsub : get_or_create_subscription env st cust subId = (some sub, st))
    (hact : sub.status = "active")
    (hpaid : pc = true ∨ subId = none ∨ env.latestInvoicePaid = true)
    (hnotfast : (inst.status == "running" && inst.welcome_email_sent) = false) :
    ensure_instance_provisioned cfg env st cust subId pc =
      match ensure_body cfg env st cust inst with
      | .ok r => (true, r.1,
          r.2 ++ [Effect.logWebhook "Instance active (provisioning ensured)"])
      | .error r => (false, r.2.1,
          r.2.2 ++ [Effect.logWebhook "Failed during provisioning ensure()"]) := by
  have hgate : (!pc && subId.isSome && !env.latestInvoicePaid) = false := by
    rcases hpaid with h | h | h <;> simp [h]
  simp only [ensure_instance_provisioned, hci, hsub, hact, bne_self_eq_false,
    Bool.false_eq_true, if_false, hgate, hnotfast]

lemma allocate_port_ok_shape (cfg : PortConfig) (db : List Instance)
    (inst : Instance) (p : Nat) (i2 : Instance)
    (h : allocate_port cfg db inst = .ok (p, i2)) :
    i2 = inst ∨ i2 = { inst with port := some p } := by
  unfold allocate_port at h
  have hscan : allocate_scan cfg db inst = .ok (p, i2) →
      i2 = inst ∨ i2 = { inst with port := some p } := by
    intro hs
    unfold allocate_scan at hs
    rcases hfind : (portRange cfg).find?
        (fun r => !((used_ports db inst.id).contains r)) with _ | r
    · rw [hfind] at hs; cases hs
    · rw [hfind] at hs
      obtain ⟨rfl, rfl⟩ : r = p ∧ { inst with port := some r } = i2 := by
        simpa using hs
      right
      rfl
  rcases hp : inst.port with _ | q
  · simp only [hp] at h
    exact hscan h
  · simp only [hp] at h
    by_cases hq : (q != 0) = true
    · rw [if_pos hq] at h
      obtain ⟨rfl, rfl⟩ : q = p ∧ inst = i2 := by simpa using h
      left
      rfl
    · rw [if_neg hq] at h
      exact hscan h

lemma exists_id_setCustomer (st : SysState) (c : Customer) (n : Nat)
    (h : ∃ i ∈ st.instances, i.id = n) :
    ∃ i ∈ (setCustomer st c).instances, i.id = n := h

/-- C2 counterexample: an instance with status `running` and
`welcome_email_sent` true for which `ensure_instance_provisioned` does NOT
return true — the customer has no resolvable subscription, so the call
returns false before reaching the fast path (no provisioning or email is
invoked either way). -/
theorem C2_fast_path_counterexample :
    (customerInstance c2State cust1.id).map
        (fun i => (i.status, i.welcome_email_sent)) = some ("running", true) ∧
    (ensure_instance_provisioned ⟨8100, 8102⟩ { } c2State cust1 none
      false).1 = false :=
  ⟨rfl, rfl⟩

/-- C2 amended: when in addition the subscription gating passes (a
subscription row resolves without ledger change, it is active, and the
paid check passes — payment confirmed, or no subscription id given, or the
latest invoice is paid), a running instance with the welcome email already
sent makes the call a no-op: it returns true with only a log entry — no
container provisioning, no routing provisioning, no email send, ledger
unchanged — and an immediate second identical call returns the identical
result. -/
theorem C2_idempotent_fast_path (cfg : PortConfig) (env : Env) (st : SysState)
    (cust : Customer) (inst : Instance) (sub : Subscription)
    (subId : Option String) (pc : Bool)
    (hci : customerInstance st cust.id = some inst)
    (hrun : inst.status = "running")
    (hsent : inst.welcome_email_sent = true)
    (hsub : get_or_create_subscription env st cust subId = (some sub, st))
    (hact : sub.status = "active")
    (hpaid : pc = true ∨ subId = none ∨ env.latestInvoicePaid = true) :
    ensure_instance_provisioned cfg env st cust subId pc =
      (true, st,
        [Effect.logWebhook "Instance already running and welcome email already sent"]) ∧
    ensure_instance_provisioned cfg env
        (ensure_instance_provisioned cfg env st cust subId pc).2.1
        cust subId pc =
      ensure_instance_provisioned cfg env st cust subId pc := by
  have hgate : (!pc && subId.isSome && !env.latestInvoicePaid) = false := by
    rcases hpaid with h | h | h <;> simp [h]
  have h1 : ensure_instance_provisioned cfg env st cust subId pc =
      (true, st,
        [Effect.logWebhook "Instance already running and welcome email already sent"]) := by
    simp only [ensure_instance_provisioned, hci, hsub, hact, bne_self_eq_false,
      Bool.false_eq_true, if_false, hgate, hrun, hsent]
    simp
  refine ⟨h1, ?_⟩
  rw [h1]
  exact h1

/-- Witness for C2 at the concrete running+sent ledger with an active
subscription: the call is the logged no-op. -/
theorem C2_idempotent_fast_path_witness :
    ensure_instance_provisioned ⟨8100, 8102⟩ { } c2GoodState cust1 none false =
      (true, c2GoodState,
        [Effect.logWebhook "Instance already running and welcome email already sent"]) :=
  (C2_idempotent_fast_path ⟨8100, 8102⟩ { } c2GoodState cust1 c2Inst sub1 none
    false rfl rfl rfl rfl rfl (Or.inr (Or.inl rfl))).1

/-- C5 counterexample: the claim that exceptions escape
`ensure_instance_provisioned` is false.  With container provisioning
raising (the `try:` body is an exception, first conjunct), the function
still returns the plain value `false` (second conjunct) with the
instance's `error` status persisted (third conjunct) — the exception was
caught and converted into a return value by the handler at lines
355-361. -/
theorem C5_exception_caught_counterexample :
    exceptOk (ensure_body ⟨8100, 8102⟩ c5Env c5State cust1 c5Inst) = false ∧
    (ensure_instance_provisioned ⟨8100, 8102⟩ c5Env c5State cust1
      (some "sub_1") true).1 = false ∧
    (instById (ensure_instance_provisioned ⟨8100, 8102⟩ c5Env c5State cust1
        (some "sub_1") true).2.1 1).map (fun i => i.status) = some "error" :=
  ⟨rfl, rfl, rfl⟩

/-- C5 amended: `ensure_instance_provisioned` does not propagate
exceptions from the provisioning steps.  Whenever the `try:` body raises
(any exception `e`, with ledger `st3` and trace `tr` at raise time) and the
call reaches the body (subscription gating passes, fast path not taken),
the function catches the exception, logs it, and returns `false` with the
ledger the body left behind. -/
theorem C5_ensure_catches_exceptions (cfg : PortConfig) (env : Env)
    (st st3 : SysState) (cust : Customer) (inst : Instance)
    (sub : Subscription) (subId : Option String) (pc : Bool) (e : String)
    (tr : List Effect)
    (hci : customerInstance st cust.id = some inst)
    (hsub : get_or_create_subscription env st cust subId = (some sub, st))
    (hact : sub.status = "active")
    (hpaid : pc = true ∨ subId = none ∨ env.latestInvoicePaid = true)
    (hnotfast : (inst.status == "running" && inst.welcome_email_sent) = false)
    (hbody : ensure_body cfg env st cust inst = .error (e, st3, tr)) :
    ensure_instance_provisioned cfg env st cust subId pc =
      (false, st3,
        tr ++ [Effect.logWebhook "Failed during provisioning ensure()"]) := by
  rw [ensure_reaches_body cfg env st cust inst sub subId pc hci hsub hact
    hpaid hnotfast, hbody]

/-- Witness for C5's amended theorem at the concrete failing-provision
scenario. -/
theorem C5_ensure_catches_exceptions_witness :
    ensure_instance_provisioned ⟨8100, 8102⟩ c5Env c5State cust1
        (some "sub_1") true =
      (false, c5ErrState,
        [Effect.provisionContainer 1,
         Effect.logWebhook "Failed during provisioning ensure()"]) :=
  C5_ensure_catches_exceptions ⟨8100, 8102⟩ c5Env c5State c5ErrState cust1
    c5Inst sub1 (some "sub_1") true "docker run failed"
    [Effect.provisionContainer 1] rfl rfl rfl (Or.inl rfl) rfl rfl

/-- C6: for every instance with `welcome_email_sent` false on which the
call reaches the welcome-email step — gating passing as in the source's
flow, and either the instance already running (a retry call) or the
container/routing provisioning of this same call succeeding (the
first-provisioning path, port allocation included) —
`ensure_instance_provisioned` returns true and the persisted flag equals
the send function's result: a failed send leaves it false (so a later
qualifying event retries), a successful send persists it true. -/
theorem C6_welcome_flag_iff_send_success (cfg : PortConfig) (env : Env)
    (st : SysState) (cust : Customer) (inst : Instance) (sub : Subscription)
    (subId : Option String) (pc : Bool)
    (hci : customerInstance st cust.id = some inst)
    (hsent : inst.welcome_email_sent = false)
    (hsub : get_or_create_subscription env st cust subId = (some sub, st))
    (hact : sub.status = "active")
    (hpaid : pc = true ∨ subId = none ∨ env.latestInvoicePaid = true)
    (hpath : inst.status = "running" ∨
      (env.provisionOk = true ∧ env.nginxOk = true ∧
        exceptOk (allocate_port cfg
          (setInstance st { inst with status := "creating" }).instances
          { inst with status := "creating" }) = true)) :
    (ensure_instance_provisioned cfg env st cust subId pc).1 = true ∧
    (instById (ensure_instance_provisioned cfg env st cust subId pc).2.1
        inst.id).map (fun i => i.welcome_email_sent) =
      some env.sendWelcomeResult := by
  have hnotfast : (inst.status == "running" && inst.welcome_email_sent)
      = false := by
    simp [hsent]
  rw [ensure_reaches_body cfg env st cust inst sub subId pc hci hsub hact
    hpaid hnotfast]
  have hmem : ∃ i ∈ st.instances, i.id = inst.id :=
    ⟨inst, mem_of_customerInstance hci, rfl⟩
  have hmem2 : ∃ i ∈ (setCustomer st
      { cust with portal_password := "pbkdf2-hash" }).instances,
      i.id = inst.id := hmem
  by_cases hrun : inst.status = "running"
  · -- retry path: the instance is already running, no provisioning step
    by_cases hpw : (cust.portal_password == "") = true <;>
      cases hsw : env.sendWelcomeResult <;>
        simp only [ensure_body, hrun, bne_self_eq_false, Bool.false_eq_true,
          if_false, hsent, Bool.not_false, if_true, hpw, hsw, reduceIte] <;>
        refine ⟨trivial, ?_⟩
    · rw [instById_setInstance_eq]
      · simp [hsent]
      · rfl
      · exact hmem2
    · rw [instById_setInstance_eq]
      · simp
      · rfl
      · exact hmem2
    · rw [instById_setInstance_eq]
      · simp [hsent]
      · rfl
      · exact hmem
    · rw [instById_setInstance_eq]
      · simp
      · rfl
      · exact hmem
  · -- first-provisioning path: container + nginx provisioned, then send
    rcases hpath with hrun2 | ⟨hprov, hng, hallocOk⟩
    · exact absurd hrun2 hrun
    have hne : (inst.status != "running") = true := by simpa using hrun
    rcases hv : allocate_port cfg
        (setInstance st { inst with status := "creating" }).instances
        { inst with status := "creating" } with e | pr
    · rw [hv] at hallocOk
      exact absurd hallocOk (by simp [exceptOk])
    rcases pr with ⟨p, i2⟩
    simp only [hsent] at hv
    rcases allocate_port_ok_shape _ _ _ _ _ hv with h2 | h2
    · subst h2
      by_cases hpw : (cust.portal_password == "") = true <;>
        cases hsw : env.sendWelcomeResult <;>
          simp only [ensure_body, provision_instance, hne, hv, hprov, hng,
            hsent, hpw, hsw, reduceIte, Bool.not_true, Bool.not_false,
            Bool.false_eq_true, if_true, if_false] <;>
          refine ⟨trivial, ?_⟩
      · rw [instById_setInstance_eq]
        · simp [hsent]
        · rfl
        · exact exists_id_setCustomer _ _ _ (exists_id_setInstance _ _ _
            (exists_id_setInstance _ _ _ (exists_id_setInstance _ _ _ hmem)))
      · rw [instById_setInstance_eq]
        · simp
        · rfl
        · exact exists_id_setCustomer _ _ _ (exists_id_setInstance _ _ _
            (exists_id_setInstance _ _ _ (exists_id_setInstance _ _ _ hmem)))
      · rw [instById_setInstance_eq]
        · simp [hsent]
        · rfl
        · exact exists_id_setInstance _ _ _
            (exists_id_setInstance _ _ _ (exists_id_setInstance _ _ _ hmem))
      · rw [instById_setInstance_eq]
        · simp
        · rfl
        · exact exists_id_setInstance _ _ _
            (exists_id_setInstance _ _ _ (exists_id_setInstance _ _ _ hmem))
    · subst h2
      by_cases hpw : (cust.portal_password == "") = true <;>
        cases hsw : env.sendWelcomeResult <;>
          simp only [ensure_body, provision_instance, hne, hv, hprov, hng,
            hsent, hpw, hsw, reduceIte, Bool.not_true, Bool.not_false,
            Bool.false_eq_true, if_true, if_false] <;>
          refine ⟨trivial, ?_⟩
      · rw [instById_setInstance_eq]
        · simp [hsent]
        · rfl
        · exact exists_id_setCustomer _ _ _ (exists_id_setInstance _ _ _
            (exists_id_setInstance _ _ _ (exists_id_setInstance _ _ _ hmem)))
      · rw [instById_setInstance_eq]
        · simp
        · rfl
        · exact exists_id_setCustomer _ _ _ (exists_id_setInstance _ _ _
            (exists_id_setInstance _ _ _ (exists_id_setInstance _ _ _ hmem)))
      · rw [instById_setInstance_eq]
        · simp [hsent]
        · rfl
        · exact exists_id_setInstance _ _ _
            (exists_id_setInstance _ _ _ (exists_id_setInstance _ _ _ hmem))
      · rw [instById_setInstance_eq]
        · simp
        · rfl
        · exact exists_id_setInstance _ _ _
            (exists_id_setInstance _ _ _ (exists_id_setInstance _ _ _ hmem))

/-- Witness for C6 on the first-provisioning path with the send failing:
the pending instance is provisioned to running in the same call (which
returns true) and `welcome_email_sent` stays false for a later retry. -/
theorem C6_welcome_flag_iff_send_success_witness :
    (ensure_instance_provisioned ⟨8100, 8102⟩ { sendWelcomeResult := false }
      c6PendState cust1 none false).1 = true ∧
    (instById (ensure_instance_provisioned ⟨8100, 8102⟩
        { sendWelcomeResult := false } c6PendState cust1 none false).2.1 1).map
      (fun i => i.welcome_email_sent) = some false :=
  C6_welcome_flag_iff_send_success ⟨8100, 8102⟩ { sendWelcomeResult := false }
    c6PendState cust1 c6PendInst sub1 none false rfl rfl rfl rfl
    (Or.inr (Or.inl rfl)) (Or.inr ⟨rfl, rfl, rfl⟩)

/-- C1 counterexample: `deleted` is not terminal.  In a ledger whose only
instance is `cust1`'s soft-deleted row, processing a
`checkout.session.completed` event for that customer moves the instance
from `deleted` to `pending` (`handle_checkout_completed`, lines 504-509). -/
theorem C1_deleted_terminal_counterexample :
    (instById c1State 1).map (fun i => i.status) = some "deleted" ∧
    (instById (handle_checkout_completed ⟨8100, 8102⟩ { } c1State
        c1Session).1 1).map (fun i => i.status) = some "pending" :=
  ⟨rfl, rfl⟩

/-- C1 amended: `deleted` is not terminal.  (a) `ensure_instance_provisioned`
re-provisions a customer's soft-deleted instance to `running` whenever the
subscription gating passes with payment confirmed, the row still holds its
port, and the container and routing steps succeed (the email step already
done); and (b) `handle_checkout_completed` revives a soft-deleted instance
to `pending`, shown at a concrete ledger. -/
theorem C1_deleted_not_terminal_amended (cfg : PortConfig) (env : Env)
    (st : SysState) (cust : Customer) (inst : Instance) (sub : Subscription)
    (subId : Option String) (p : Nat)
    (hci : customerInstance st cust.id = some inst)
    (hdel : inst.status = "deleted")
    (hsub : get_or_create_subscription env st cust subId = (some sub, st))
    (hact : sub.status = "active")
    (hport : inst.port = some p) (hp0 : p ≠ 0)
    (hprov : env.provisionOk = true) (hng : env.nginxOk = true)
    (hsent : inst.welcome_email_sent = true) :
    ((ensure_instance_provisioned cfg env st cust subId true).1 = true ∧
     (instById (ensure_instance_provisioned cfg env st cust subId true).2.1
        inst.id).map (fun i => i.status) = some "running") ∧
    (instById (handle_checkout_completed ⟨8100, 8102⟩ { } c1bState
        c1bSession).1 2).map (fun i => i.status) = some "pending" := by
  refine ⟨?_, by rfl⟩
  have hnotfast : (inst.status == "running" && inst.welcome_email_sent)
      = false := by
    simp [hdel]
  have hp0b : (p != 0) = true := by simp [hp0]
  have hmem : ∃ i ∈ st.instances, i.id = inst.id :=
    ⟨inst, mem_of_customerInstance hci, rfl⟩
  have hne1 : (("deleted" : String) != "running") = true := by decide
  rw [ensure_reaches_body cfg env st cust inst sub subId true hci hsub hact
    (Or.inl rfl) hnotfast]
  simp only [ensure_body, provision_instance, allocate_port, hdel, hport,
    hp0b, hprov, hng, hsent, hne1, if_true, reduceIte, Bool.not_true,
    Bool.false_eq_true, if_false]
  refine ⟨trivial, ?_⟩
  rw [instById_setInstance_eq]
  · simp
  · rfl
  · exact exists_id_setInstance _ _ _
      (exists_id_setInstance _ _ _ (exists_id_setInstance _ _ _ hmem))

/-- Witness for C1's amended theorem at the concrete ledger with the
deleted, port-holding instance and an active subscription. -/
theorem C1_deleted_not_terminal_amended_witness :
    ((ensure_instance_provisioned ⟨8100, 8102⟩ { } c1EnsState cust1 none
        true).1 = true ∧
     (instById (ensure_instance_provisioned ⟨8100, 8102⟩ { } c1EnsState cust1
        none true).2.1 1).map (fun i => i.status) = some "running") ∧
    (instById (handle_checkout_completed ⟨8100, 8102⟩ { } c1bState
        c1bSession).1 2).map (fun i => i.status) = some "pending" :=
  C1_deleted_not_terminal_amended ⟨8100, 8102⟩ { } c1EnsState cust1 c1EnsInst
    sub1 none 8100 rfl rfl rfl rfl rfl (by decide) rfl rfl rfl

end Provisioner
